import Mathlib

/-!
Verification of the transport / pagination / upload engine of a typed REST
client library (appcenter). Each Python function of the source is shallowly
embedded as an executable Lean definition over lists of characters, natural
numbers and explicit state, and the specified properties are proved about
those definitions.
-/

namespace AppCenter

/-! ### String primitives (Python string operations on lists of characters) -/

/-- Python substring containment (the "in" operator on strings): true iff
pat occurs contiguously somewhere in the list, including the empty pattern. -/
def containsSub (pat : List Char) : List Char → Bool
  | [] => pat.isEmpty
  | c :: rest => pat.isPrefixOf (c :: rest) || containsSub pat rest

/-- Python str.replace(old, new, 1): replace the first occurrence of pat by
rep, scanning left to right; the input is returned unchanged when pat does
not occur. -/
def replaceFirst (pat rep : List Char) : List Char → List Char
  | [] => if pat.isEmpty then rep else []
  | c :: rest =>
    if pat.isPrefixOf (c :: rest) then rep ++ (c :: rest).drop pat.length
    else c :: replaceFirst pat rep rest

/-- Occurrence test: pat matches in l at position i. -/
def matchAt (l pat : List Char) (i : Nat) : Bool :=
  pat.isPrefixOf (l.drop i)

/-! ### Continuation link repair (crashes.AppCenterCrashesClient next link polishing) -/

/-- The inserted segment "/org/app/" used when the service returns a link
with a bare double slash in place of the organization and app names. -/
def orgAppSegment (org app : List Char) : List Char :=
  '/' :: (org ++ '/' :: app) ++ ['/']

/-- The double slash pattern. -/
def dblSlash : List Char := ['/', '/']

/-- The spurious api path fragment stripped from continuation links. -/
def apiPat : List Char := ['/', 'a', 'p', 'i']

/-- Embedding of AppCenterCrashesClient with underscore next link polished:
if "org/app" does not occur in the link, the first "//" is replaced by
"/org/app/"; then the first "/api" is removed. -/
def nextLinkPolished (nextLink org app : List Char) : List Char :=
  let link1 :=
    if containsSub (org ++ '/' :: app) nextLink then nextLink
    else replaceFirst dblSlash (orgAppSegment org app) nextLink
  replaceFirst apiPat [] link1

/-! ### HTTP data model (requests.Response and the error classes) -/

/-- A minimal JSON value model for request and response bodies. -/
inductive Json where
  | str (s : String)
  | num (n : Int)
  | bool (b : Bool)
  | null
  | arr (xs : List Json)
  | obj (fields : List (String × Json))

/-- The embedding of requests.Response as consumed by this library: the
request method and url, the status code, the raw body text, and the result
of response.json() (none when the body is not valid JSON and the call
raises). -/
structure Response where
  method : String
  url : String
  statusCode : Nat
  text : String
  jsonBody : Option Json

/-- requests Response.ok: true iff the status code is below 400. -/
def respOk (r : Response) : Bool := r.statusCode < 400

/-- AppCenterHTTPError: the structured error body shape. -/
structure AppCenterHTTPError where
  code : String
  message : String

/-- AppCenterHTTPError string form. -/
def httpErrorStr (e : AppCenterHTTPError) : String :=
  "<code=" ++ e.code ++ ", message=" ++ e.message ++ ">"

/-- The two exception classes: the decoded one carries the structured error,
the plain one only the response. -/
inductive AppCenterHTTPException where
  | decoded (response : Response) (error : AppCenterHTTPError)
  | undecoded (response : Response)

/-- String form of the exceptions, as produced by their str methods. The
undecoded form embeds the raw response text. -/
def exceptionStr : AppCenterHTTPException → String
  | .undecoded r =>
    "<method=" ++ r.method ++ ", url=" ++ r.url ++ ", status_code=" ++
      toString r.statusCode ++ ", text=" ++ r.text ++ ">"
  | .decoded r e =>
    "method=" ++ r.method ++ ", url=" ++ r.url ++ ", status_code=" ++
      toString r.statusCode ++ ", error=" ++ httpErrorStr e

/-- Lookup of a string field in a JSON object field list. -/
def lookupStr (fields : List (String × Json)) (key : String) : Option String :=
  match fields.lookup key with
  | some (Json.str s) => some s
  | _ => none

/-- Embedding of deserialize.deserialize at type AppCenterHTTPError: the body
must be a JSON object with string fields code and message (unknown extra
keys are ignored by the library); anything else raises, modelled as none. -/
def parseHTTPError : Json → Option AppCenterHTTPError
  | Json.obj fields =>
    match lookupStr fields "code", lookupStr fields "message" with
    | some c, some m => some ⟨c, m⟩
    | _, _ => none
  | _ => none

/-- The decode attempted by create underscore exception: response.json()
followed by deserialize; none when either step raises. -/
def responseErrorParse (response : Response) : Option AppCenterHTTPError :=
  response.jsonBody.bind parseHTTPError

/-- Embedding of create underscore exception: try to decode the body into the
structured error; any failure inside the try block falls back to the plain
exception. The Python except clause catches every exception, so the function
is total, which the Lean type makes explicit. -/
def createException (response : Response) : AppCenterHTTPException :=
  match responseErrorParse response with
  | some e => .decoded response e
  | none => .undecoded response

/-! ### Connection failure detection and the tenacity retry wrapper -/

/-- The fixed textual signatures scanned for by the underscore is connection
failure helper. -/
def connectionChecks : List String :=
  ["Operation timed out", "Connection aborted.", "bad handshake: ",
   "Failed to establish a new connection"]

/-- Embedding of the underscore is connection failure helper: substring
search of each signature over the string form of the exception. -/
def isConnectionFailure (excText : String) : Bool :=
  connectionChecks.any (fun check => containsSub check.toList excText.toList)

/-- The body of AppCenterDerivedClient.get: raise for every status code
other than 200, return the response otherwise. -/
def getBody (response : Response) : Except AppCenterHTTPException Response :=
  if response.statusCode ≠ 200 then .error (createException response)
  else .ok response

/-- The body of AppCenterDerivedClient.post (also patch, delete, the file
post and the blob upload): raise outside the closed-open range 200 to 300,
return the response otherwise. -/
def postBody (response : Response) : Except AppCenterHTTPException Response :=
  if response.statusCode < 200 ∨ 300 ≤ response.statusCode then
    .error (createException response)
  else .ok response

/-- Outcome of a tenacity wrapped call: a returned value, a propagated
non-retryable exception, or a RetryError after the attempt budget is
exhausted while the retry condition still holds (the RetryError wraps the
last attempt). -/
inductive RetryOutcome where
  | value (r : Response)
  | raised (e : AppCenterHTTPException)
  | retryStop (last : Except AppCenterHTTPException Response)

/-- The tenacity retry driver with stop after attempt semantics: run the
call; an exception matching excRetry, or a result matching resRetry, is
retried while attempts remain, and yields a RetryError once the attempt
budget is spent; any other exception is reraised at once and any other
result is returned at once. Returns the outcome with the number of calls
made. -/
def tenacityLoop (call : Nat → Except AppCenterHTTPException Response)
    (excRetry : AppCenterHTTPException → Bool) (resRetry : Response → Bool) :
    Nat → Nat → RetryOutcome × Nat
  | made, 0 => (.retryStop (call made), made)
  | made, remaining + 1 =>
    match call made with
    | .ok r =>
      if resRetry r then
        if remaining = 0 then (.retryStop (.ok r), made + 1)
        else tenacityLoop call excRetry resRetry (made + 1) remaining
      else (.value r, made + 1)
    | .error e =>
      if excRetry e then
        if remaining = 0 then (.retryStop (.error e), made + 1)
        else tenacityLoop call excRetry resRetry (made + 1) remaining
      else (.raised e, made + 1)

/-- The retry condition on exceptions shared by every wrapped method:
connection failure detected by substring search over the string form. -/
def getRetryPred (e : AppCenterHTTPException) : Bool :=
  isConnectionFailure (exceptionStr e)

/-- The extra result based retry condition registered on get: retry while
the returned response has status 202. -/
def getResultRetryPred (r : Response) : Bool :=
  r.statusCode == 202

/-- AppCenterDerivedClient.get as wrapped by its tenacity decorator, driven
by the sequence of responses the server would return to successive calls.
Stop after attempt 3. -/
def runGet (responses : Nat → Response) : RetryOutcome × Nat :=
  tenacityLoop (fun n => getBody (responses n)) getRetryPred getResultRetryPred 0 3

/-- AppCenterDerivedClient.post as wrapped by its tenacity decorator (no
result based retry condition). -/
def runPost (responses : Nat → Response) : RetryOutcome × Nat :=
  tenacityLoop (fun n => postBody (responses n)) getRetryPred (fun _ => false) 0 3

/-! ### The upload status poll (versions client, wait for upload) -/

/-- CommitUploadResponse from the data model: id, upload status, optional
release id. -/
structure CommitUploadResponse where
  identifier : String
  upload_status : String
  release_distinct_id : Option Int

/-- Embedding of deserialize.deserialize at type CommitUploadResponse: a
JSON object with a string id, a string upload underscore status, and an
optional integer release underscore distinct underscore id; any other shape
raises, modelled as none. -/
def parseCommitUpload : Json → Option CommitUploadResponse
  | Json.obj fields =>
    match lookupStr fields "id", lookupStr fields "upload_status" with
    | some ident, some status =>
      match fields.lookup "release_distinct_id" with
      | some (Json.num n) => some ⟨ident, status, some n⟩
      | some Json.null => some ⟨ident, status, none⟩
      | none => some ⟨ident, status, none⟩
      | some _ => none
    | _, _ => none
  | _ => none

/-- A raised Python exception, by kind: a plain Exception with a message, an
AttributeError from a failed attribute lookup, a propagated HTTP exception,
or a tenacity RetryError wrapping the last attempt. -/
inductive PyExn where
  | exn (message : String)
  | attributeError (message : String)
  | httpExn (e : AppCenterHTTPException)
  | tenacityRetryError (last : Except AppCenterHTTPException Response)

/-- What one iteration of the wait for upload loop does. -/
inductive WaitStepResult where
  | sleepAndRetry
  | done (r : CommitUploadResponse)
  | raise (e : PyExn)

/-- The status dispatch at the end of each wait for upload iteration,
translated clause by clause from the source. On status error the source
evaluates an attribute named get on the deserialized CommitUploadResponse
object; that class has no such attribute, so the lookup raises an
AttributeError before the intended message (which would have embedded the
server supplied error detail) is ever built. -/
def pollStep (response_data : CommitUploadResponse) : WaitStepResult :=
  if response_data.upload_status = "uploadStarted" ∨
      response_data.upload_status = "uploadFinished" then .sleepAndRetry
  else if response_data.upload_status = "uploadCanceled" then .done response_data
  else if response_data.upload_status = "readyToBePublished" then .done response_data
  else if response_data.upload_status = "malwareDetected" then
    .raise (.exn "Malware detected in uploaded binary")
  else if response_data.upload_status = "error" then
    .raise (.attributeError "CommitUploadResponse object has no attribute get")
  else .raise (.exn ("Unexpected status: " ++ response_data.upload_status))

/-- One iteration of the wait for upload loop: fetch the status resource
through the tenacity wrapped get (whose exceptions are not caught there and
so propagate to the caller); when a response comes back, the not-ok branch
and the decode failures sleep and retry; a decoded body goes to the status
dispatch. -/
def waitStep (responses : Nat → Response) : WaitStepResult :=
  match runGet responses with
  | (.value response, _) =>
    if !respOk response then .sleepAndRetry
    else
      match response.jsonBody with
      | none => .sleepAndRetry
      | some j =>
        match parseCommitUpload j with
        | none => .sleepAndRetry
        | some response_data => pollStep response_data
  | (.raised e, _) => .raise (.httpExn e)
  | (.retryStop last, _) => .raise (.tenacityRetryError last)

/-! ### The chunk upload drain loop (versions client, upload binary) -/

/-- First pass of upload binary: every chunk number is attempted once
through the inner chunk upload helper (which has its own bounded retry);
each chunk whose attempt fails is appended to the retry queue paired with
the literal counter value 0, exactly as the source appends it. The outcome
of attempting a chunk is abstracted by the uploadOk oracle. -/
def firstPassUnhandled (uploadOk : Nat → Bool) (chunk_numbers : List Nat) :
    List (Nat × Nat) :=
  (chunk_numbers.filter (fun n => !uploadOk n)).map (fun n => (n, 0))

/-- The drain loop of upload binary, with explicit fuel: pop the front
entry; if its recorded attempt counter has reached 3 the whole upload
returns False; otherwise the chunk is attempted again, and on failure is
re-appended paired with the counter value 0 (the source never increments
the counter). Returns some true when the queue empties (the source then
calls mark upload finished and returns True), some false on the budget
check, and none when the fuel is spent with the loop still running. -/
def drainRetryQueue (uploadOk : Nat → Bool) :
    List (Nat × Nat) → Nat → Option Bool
  | [], _ => some true
  | _ :: _, 0 => none
  | (chunk_number, attempts) :: rest, fuel + 1 =>
    if 3 ≤ attempts then some false
    else if uploadOk chunk_number then drainRetryQueue uploadOk rest fuel
    else drainRetryQueue uploadOk (rest ++ [(chunk_number, 0)]) fuel

/-- upload binary restricted to its chunk loop structure: run the first
pass, then drain the retry queue. The result some true corresponds to the
execution that goes on to call mark upload finished and return True; some
false to the execution returning False; none to an execution that is still
inside the drain loop after the given number of iterations. -/
def uploadBinary (uploadOk : Nat → Bool) (chunk_numbers : List Nat)
    (fuel : Nat) : Option Bool :=
  drainRetryQueue uploadOk (firstPassUnhandled uploadOk chunk_numbers) fuel

/-- A chunk upload oracle under which every attempt fails. -/
def alwaysFailChunk : Nat → Bool := fun _ => false

/-! ### Build metadata serialization (models.BuildInfo and ReleaseUpdateRequest) -/

/-- A conditional dictionary entry: present exactly when the optional value
is set. -/
def optField (key : String) : Option Json → List (String × Json)
  | some v => [(key, v)]
  | none => []

/-- BuildInfo: the three optional build metadata fields. -/
structure BuildInfo where
  branch_name : Option String
  commit_hash : Option String
  commit_message : Option String

/-- BuildInfo.json: insert each field under its key only when it is set, in
source order. -/
def BuildInfo.json (b : BuildInfo) : List (String × Json) :=
  optField "branch_name" (b.branch_name.map Json.str)
  ++ optField "commit_hash" (b.commit_hash.map Json.str)
  ++ optField "commit_message" (b.commit_message.map Json.str)

/-- DestinationId: optional name and identifier. -/
structure DestinationId where
  name : Option String
  identifier : Option String

/-- DestinationId.json: name under key name, identifier under key id, each
only when set. -/
def DestinationId.json (d : DestinationId) : List (String × Json) :=
  optField "name" (d.name.map Json.str)
  ++ optField "id" (d.identifier.map Json.str)

/-- ReleaseUpdateRequest: the five optional release update fields. -/
structure ReleaseUpdateRequest where
  release_notes : Option String
  mandatory_update : Option Bool
  destinations : Option (List DestinationId)
  build : Option BuildInfo
  notify_testers : Option Bool

/-- ReleaseUpdateRequest.json: insert each field under its key only when it
is set, in source order; destinations and build serialize their nested
values. -/
def ReleaseUpdateRequest.json (r : ReleaseUpdateRequest) : List (String × Json) :=
  optField "release_notes" (r.release_notes.map Json.str)
  ++ optField "mandatory_update" (r.mandatory_update.map Json.bool)
  ++ optField "destinations"
      (r.destinations.map (fun ds => Json.arr (ds.map (fun d => Json.obj d.json))))
  ++ optField "build" (r.build.map (fun b => Json.obj b.json))
  ++ optField "notify_testers" (r.notify_testers.map Json.bool)

/-! ### The pager (crashes client, get error groups) -/

/-- A decoded page of the error groups listing: the optional continuation
link and the optional item list (the service can omit either key). -/
structure ErrorGroupsPage (Item : Type) where
  nextLink : Option String
  errorGroups : Option (List Item)

/-- Result of running the generator loop of get error groups: the yielded
items on normal termination, a TypeError when a page has no item list (the
source iterates the missing list), or fuel exhaustion, each carrying the
items yielded so far. -/
inductive PagerResult (Item : Type) where
  | ok (items : List Item)
  | typeError (itemsSoFar : List Item)
  | outOfFuel (itemsSoFar : List Item)

/-- Prepend the items of an earlier page to a loop result. -/
def PagerResult.prepend (items : List Item) : PagerResult Item → PagerResult Item
  | .ok l => .ok (items ++ l)
  | .typeError l => .typeError (items ++ l)
  | .outOfFuel l => .outOfFuel (items ++ l)

/-- The page loop of get error groups: fetch and decode the current url,
yield the items of the page, stop when the page has no continuation link,
and otherwise follow the polished link prefixed with the API base url.
Returns the loop result together with the number of pages fetched. -/
def getErrorGroupsLoop (baseUrl org app : String)
    (fetch : String → ErrorGroupsPage Item) (url : String) :
    Nat → PagerResult Item × Nat
  | 0 => (.outOfFuel [], 0)
  | fuel + 1 =>
    let page := fetch url
    match page.errorGroups with
    | none => (.typeError [], 1)
    | some items =>
      match page.nextLink with
      | none => (.ok items, 1)
      | some link =>
        let nextUrl := baseUrl ++
          String.mk (nextLinkPolished link.toList org.toList app.toList)
        let rest := getErrorGroupsLoop baseUrl org app fetch nextUrl fuel
        (rest.1.prepend items, rest.2 + 1)

/-! ### Concrete inputs used to evaluate the model -/

/-- A GET response with status 202 and an empty, non JSON body. -/
def resp202 : Response := ⟨"GET", "u", 202, "", none⟩

/-- A GET response with status 204 and an empty, non JSON body. -/
def resp204 : Response := ⟨"GET", "u", 204, "", none⟩

/-- A POST response with status 201. -/
def resp201 : Response := ⟨"POST", "u", 201, "", none⟩

/-- A GET response with status 404 and a body that is not JSON. -/
def resp404 : Response := ⟨"GET", "u", 404, "nope", none⟩

/-- A GET response with status 500 whose body happens to contain one of the
connection failure signatures. -/
def resp500conn : Response := ⟨"GET", "u", 500, "Connection aborted.", none⟩

/-- A GET response with status 500 and an ordinary error body. -/
def resp500plain : Response := ⟨"GET", "u", 500, "server error", none⟩

/-- A 200 response whose body is not valid JSON, so that decoding fails. -/
def resp200badBody : Response := ⟨"GET", "u", 200, "not json", none⟩

/-- A 404 response whose body decodes to the structured error shape. -/
def respDecodedBody : Response :=
  ⟨"GET", "u", 404, "body",
    some (Json.obj [("code", Json.str "NotFound"), ("message", Json.str "gone")])⟩

/-- Decoded status poll responses, one per upload status of interest. -/
def commitStarted : CommitUploadResponse := ⟨"upl", "uploadStarted", none⟩

/-- Status poll response in state uploadFinished. -/
def commitFinished : CommitUploadResponse := ⟨"upl", "uploadFinished", none⟩

/-- Status poll response in state uploadCanceled. -/
def commitCanceled : CommitUploadResponse := ⟨"upl", "uploadCanceled", none⟩

/-- Status poll response in state readyToBePublished. -/
def commitReady : CommitUploadResponse := ⟨"upl", "readyToBePublished", some 7⟩

/-- Status poll response in state malwareDetected. -/
def commitMalware : CommitUploadResponse := ⟨"upl", "malwareDetected", none⟩

/-- Status poll response in state error (the server would also supply an
error detail text alongside, which the decoded value does not even carry,
since the CommitUploadResponse class has no field for it). -/
def commitError : CommitUploadResponse := ⟨"upl", "error", none⟩

/-- Status poll response in an unrecognized state. -/
def commitWeird : CommitUploadResponse := ⟨"upl", "weirdState", none⟩

/-- A continuation link with the bare double slash and a spurious api
fragment. -/
def sampleNextLink : List Char := "/x//y/api/z".toList

/-- A sample organization name. -/
def sampleOrg : List Char := "o".toList

/-- A sample app name. -/
def sampleApp : List Char := "a".toList

/-- A link containing the api fragment only. -/
def sampleApiLink : List Char := "/b/api/c".toList

/-- A one page listing: no continuation link, two items. -/
def singlePage : ErrorGroupsPage Nat := ⟨none, some [7, 9]⟩

/-- A release update request with only the release notes set. -/
def sampleUpdateRequest : ReleaseUpdateRequest := ⟨some "notes", none, none, none, none⟩

/-- Build metadata with only the branch name set. -/
def sampleBuildInfo : BuildInfo := ⟨some "main", none, none⟩

/-! ### Key lemma: replaceFirst splices at the first occurrence -/

theorem replaceFirst_splice (pat rep : List Char) (hpat : pat ≠ []) :
    ∀ (i : Nat) (l : List Char),
      (∀ j, j < i → matchAt l pat j = false) →
      matchAt l pat i = true →
      replaceFirst pat rep l = l.take i ++ rep ++ l.drop (i + pat.length) := by
  intro i
  induction i with
  | zero =>
    intro l _ h0
    unfold matchAt at h0
    simp only [List.drop_zero] at h0
    cases l with
    | nil =>
      cases pat with
      | nil => exact absurd rfl hpat
      | cons p ps => simp [List.isPrefixOf] at h0
    | cons c rest =>
      simp [replaceFirst, h0]
  | succ i ih =>
    intro l hlt hi
    have h0 : matchAt l pat 0 = false := hlt 0 (Nat.succ_pos i)
    unfold matchAt at h0
    simp only [List.drop_zero] at h0
    cases l with
    | nil =>
      unfold matchAt at hi
      simp only [List.drop_nil] at hi
      cases pat with
      | nil => exact absurd rfl hpat
      | cons p ps => simp [List.isPrefixOf] at hi
    | cons c rest =>
      have hstep : replaceFirst pat rep (c :: rest) = c :: replaceFirst pat rep rest := by
        simp [replaceFirst, h0]
      have hlt' : ∀ j, j < i → matchAt rest pat j = false := by
        intro j hj
        have := hlt (j + 1) (Nat.succ_lt_succ hj)
        unfold matchAt at this ⊢
        simpa [List.drop_succ_cons] using this
      have hi' : matchAt rest pat i = true := by
        unfold matchAt at hi ⊢
        simpa [List.drop_succ_cons] using hi
      rw [hstep, ih rest hlt' hi']
      simp [List.take_succ_cons, List.drop_succ_cons, Nat.add_right_comm i 1 pat.length]

/-! ### Claim theorems -/

/-- Claim C1 (code bug): the claim states that a chunk failing all of its
attempts in both passes makes upload binary terminate and return False
after the retry queue grants it an attempt budget of 3. On the code, the
drain loop re-appends a failed chunk paired with the literal counter 0, so
the budget check (counter at least 3) never fires: with a single chunk
whose every upload attempt fails, the loop never terminates; whatever
iteration bound is allowed, the run is still inside the loop, so neither
False is returned nor mark upload finished reached. -/
theorem uploadBinary_unbounded_requeue :
    ∀ fuel : Nat, uploadBinary alwaysFailChunk [0] fuel = none := by
  have key : ∀ fuel : Nat, drainRetryQueue alwaysFailChunk [(0, 0)] fuel = none := by
    intro fuel
    induction fuel with
    | zero => rfl
    | succ n ih => simpa [drainRetryQueue, alwaysFailChunk] using ih
  intro fuel
  simpa [uploadBinary, firstPassUnhandled, alwaysFailChunk] using key fuel

/-- Claim C2 (code bug): the claim states that a GET receiving status 202
is retried up to 3 total attempts before an error is raised. On the code,
the body of get raises for every status other than 200 before returning,
so the registered result based retry condition never observes a 202: a GET
whose response has status 202 makes exactly one HTTP call and raises the
typed HTTP exception at once. -/
theorem get_status202_raises_after_one_call :
    runGet (fun _ => resp202) = (.raised (.undecoded resp202), 1) := rfl

/-- Claim C3 (code bug): the claim states that a status fetch yielding a
non ok HTTP response sleeps 2 seconds and polls again rather than
propagating an error. On the code, the fetch goes through get, which
raises for every non 200 status, and the wait loop has no handler around
it, so the not-ok branch is unreachable and the exception propagates to
the caller (first conjunct, on a plain 500). The body decode failure half
of the claim does hold (second conjunct). -/
theorem waitForUpload_fetch_outcomes :
    waitStep (fun _ => resp500plain) = .raise (.httpExn (.undecoded resp500plain))
    ∧ waitStep (fun _ => resp200badBody) = .sleepAndRetry := ⟨rfl, rfl⟩

/-- Claim C4 (confirmed): on a continuation link not containing the
org slash app segment, the polished link is the link with its first double
slash occurrence replaced by slash org slash app slash, followed by the
api strip; the api strip removes exactly the first occurrence of the
pattern; and when the segment is present the link goes through the api
strip unchanged otherwise. -/
theorem nextLink_repair (link org app : List Char) :
    (∀ i : Nat,
        containsSub (org ++ '/' :: app) link = false →
        (∀ j ∈ List.range i, matchAt link dblSlash j = false) →
        matchAt link dblSlash i = true →
        nextLinkPolished link org app
          = replaceFirst apiPat []
              (link.take i ++ orgAppSegment org app ++ link.drop (i + 2)))
    ∧ (∀ (s : List Char) (k : Nat),
        (∀ j ∈ List.range k, matchAt s apiPat j = false) →
        matchAt s apiPat k = true →
        replaceFirst apiPat [] s = s.take k ++ s.drop (k + 4))
    ∧ (containsSub (org ++ '/' :: app) link = true →
        nextLinkPolished link org app = replaceFirst apiPat [] link) := by
  refine ⟨?_, ?_, ?_⟩
  · intro i hmiss hfirst hi
    have h2 := replaceFirst_splice dblSlash (orgAppSegment org app) (by decide) i link
      (fun j hj => hfirst j (List.mem_range.mpr hj)) hi
    rw [show dblSlash.length = 2 from rfl] at h2
    simp [nextLinkPolished, hmiss, h2]
  · intro s k hfirst hk
    have h2 := replaceFirst_splice apiPat [] (by decide) k s
      (fun j hj => hfirst j (List.mem_range.mpr hj)) hk
    rw [show apiPat.length = 4 from rfl] at h2
    simpa using h2
  · intro hin
    simp [nextLinkPolished, hin]

/-- Witness for claim C4 at a concrete link, organization and app. -/
theorem nextLink_repair_witness :
    nextLinkPolished sampleNextLink sampleOrg sampleApp
      = replaceFirst apiPat []
          (sampleNextLink.take 2 ++ orgAppSegment sampleOrg sampleApp
            ++ sampleNextLink.drop 4)
    ∧ replaceFirst apiPat [] sampleApiLink
      = sampleApiLink.take 2 ++ sampleApiLink.drop 6 :=
  ⟨(nextLink_repair sampleNextLink sampleOrg sampleApp).1 2
      (by decide) (by decide) (by decide),
   (nextLink_repair sampleNextLink sampleOrg sampleApp).2.1 sampleApiLink 2
      (by decide) (by decide)⟩

/-- Claim C5 (code bug): the non terminal statuses continue polling, the
two success statuses return, malware raises at once, and an unrecognized
status raises; but on status error, the code evaluates an attribute named
get on the deserialized CommitUploadResponse object, which raises an
AttributeError before the intended message embedding the server supplied
error detail is built, so the raised error carries no such detail. -/
theorem waitForUpload_status_dispatch :
    pollStep commitStarted = .sleepAndRetry
    ∧ pollStep commitFinished = .sleepAndRetry
    ∧ pollStep commitCanceled = .done commitCanceled
    ∧ pollStep commitReady = .done commitReady
    ∧ pollStep commitMalware = .raise (.exn "Malware detected in uploaded binary")
    ∧ pollStep commitError
        = .raise (.attributeError "CommitUploadResponse object has no attribute get")
    ∧ pollStep commitWeird = .raise (.exn "Unexpected status: weirdState") :=
  ⟨rfl, rfl, rfl, rfl, rfl, rfl, rfl⟩

/-- Claim C6, amended: for the POST family (post, patch, delete, file post,
blob upload) a status in the closed-open range 200 to 300 is success
returned as-is and anything else raises the typed error; for GET only
status 200 is success and every other status, 2xx included, raises. -/
theorem transport_success_ranges (resp : Response) :
    (200 ≤ resp.statusCode ∧ resp.statusCode < 300 → postBody resp = .ok resp)
    ∧ (resp.statusCode < 200 ∨ 300 ≤ resp.statusCode →
        postBody resp = .error (createException resp))
    ∧ (resp.statusCode = 200 → getBody resp = .ok resp)
    ∧ (resp.statusCode ≠ 200 → getBody resp = .error (createException resp)) := by
  refine ⟨?_, ?_, ?_, ?_⟩
  · intro h
    unfold postBody
    rw [if_neg (by omega)]
  · intro h
    unfold postBody
    rw [if_pos h]
  · intro h
    unfold getBody
    rw [if_neg (by omega)]
  · intro h
    unfold getBody
    rw [if_pos h]

/-- Witness for the amended claim C6 at status 201 (POST success) and
status 404 (GET error). -/
theorem transport_success_ranges_witness :
    postBody resp201 = .ok resp201
    ∧ getBody resp404 = .error (createException resp404) :=
  ⟨(transport_success_ranges resp201).1 (by decide),
   (transport_success_ranges resp404).2.2.2 (by decide)⟩

/-- Counterexample to claim C6 as stated: the GET response with status 204
lies in the closed-open range 200 to 300, yet get raises the typed HTTP
exception instead of returning the response. -/
theorem transport_get204_counterexample :
    200 ≤ resp204.statusCode
    ∧ resp204.statusCode < 300
    ∧ getBody resp204 = .error (.undecoded resp204)
    ∧ getBody resp204 ≠ .ok resp204 := by
  refine ⟨by decide, by decide, rfl, ?_⟩
  intro h
  rw [show getBody resp204 = .error (.undecoded resp204) from rfl] at h
  exact Except.noConfusion h

/-- Claim C7 (confirmed): the classifier returns the decoded error exactly
when the response body parses as the structured code and message shape, and
otherwise the undecoded error carrying the raw response; it is total by
construction, so it never throws. -/
theorem createException_classification (resp : Response) :
    (∀ e, responseErrorParse resp = some e → createException resp = .decoded resp e)
    ∧ (responseErrorParse resp = none → createException resp = .undecoded resp) := by
  constructor
  · intro e h
    simp [createException, h]
  · intro h
    simp [createException, h]

/-- Witness for claim C7: a body decoding to the structured shape yields
the decoded error, a non JSON body yields the undecoded error. -/
theorem createException_classification_witness :
    createException respDecodedBody = .decoded respDecodedBody ⟨"NotFound", "gone"⟩
    ∧ createException resp404 = .undecoded resp404 :=
  ⟨(createException_classification respDecodedBody).1 ⟨"NotFound", "gone"⟩ rfl,
   (createException_classification resp404).2 rfl⟩

/-- Claim C8 (confirmed): when the fetched page has no continuation link
and carries an item list, the pager yields exactly the items of that page,
terminates, and fetches exactly one page. -/
theorem pager_single_page {Item : Type} (baseUrl org app url : String)
    (fetch : String → ErrorGroupsPage Item) (items : List Item) (fuel : Nat)
    (hlink : (fetch url).nextLink = none)
    (hitems : (fetch url).errorGroups = some items)
    (hfuel : 1 ≤ fuel) :
    getErrorGroupsLoop baseUrl org app fetch url fuel = (.ok items, 1) := by
  cases fuel with
  | zero => exact absurd hfuel (by decide)
  | succ n => simp [getErrorGroupsLoop, hitems, hlink]

/-- Witness for claim C8 on a concrete one page listing. -/
theorem pager_single_page_witness :
    getErrorGroupsLoop "base" "o" "a" (fun _ => singlePage) "u" 1 = (.ok [7, 9], 1) :=
  pager_single_page "base" "o" "a" "u" (fun _ => singlePage) [7, 9] 1 rfl rfl
    (by decide)

/-- Claim C9 (confirmed): the serialized release update request contains
exactly one key per set optional field, in source order, and no key for an
unset field; no value is the JSON null; and the same holds for the nested
build metadata. -/
theorem releaseUpdateRequest_json_exact (r : ReleaseUpdateRequest) (b : BuildInfo) :
    (r.json.map Prod.fst
        = (if r.release_notes.isSome then ["release_notes"] else [])
          ++ (if r.mandatory_update.isSome then ["mandatory_update"] else [])
          ++ (if r.destinations.isSome then ["destinations"] else [])
          ++ (if r.build.isSome then ["build"] else [])
          ++ (if r.notify_testers.isSome then ["notify_testers"] else []))
    ∧ (∀ kv ∈ r.json, kv.2 ≠ Json.null)
    ∧ (b.json.map Prod.fst
        = (if b.branch_name.isSome then ["branch_name"] else [])
          ++ (if b.commit_hash.isSome then ["commit_hash"] else [])
          ++ (if b.commit_message.isSome then ["commit_message"] else []))
    ∧ (∀ kv ∈ b.json, kv.2 ≠ Json.null) := by
  obtain ⟨rn, mu, ds, bd, nt⟩ := r
  obtain ⟨bn, ch, cm⟩ := b
  refine ⟨?_, ?_, ?_, ?_⟩
  · cases rn <;> cases mu <;> cases ds <;> cases bd <;> cases nt <;>
      simp [ReleaseUpdateRequest.json, optField]
  · cases rn <;> cases mu <;> cases ds <;> cases bd <;> cases nt <;>
      simp [ReleaseUpdateRequest.json, optField]
  · cases bn <;> cases ch <;> cases cm <;>
      simp [BuildInfo.json, optField]
  · cases bn <;> cases ch <;> cases cm <;>
      simp [BuildInfo.json, optField]

/-- Witness for claim C9 at a request with only the release notes set and
build metadata with only the branch name set. -/
theorem releaseUpdateRequest_json_exact_witness :
    sampleUpdateRequest.json.map Prod.fst
      = (if sampleUpdateRequest.release_notes.isSome then ["release_notes"] else [])
        ++ (if sampleUpdateRequest.mandatory_update.isSome then ["mandatory_update"] else [])
        ++ (if sampleUpdateRequest.destinations.isSome then ["destinations"] else [])
        ++ (if sampleUpdateRequest.build.isSome then ["build"] else [])
        ++ (if sampleUpdateRequest.notify_testers.isSome then ["notify_testers"] else []) :=
  (releaseUpdateRequest_json_exact sampleUpdateRequest sampleBuildInfo).1

/-- Claim C10 (confirmed): there is a non 2xx response, namely a 500 whose
body contains the text Connection aborted followed by a period, whose typed
HTTP exception is classified as a connection failure by the substring
check, so the tenacity wrapper retries it to the 3 attempt bound (three
HTTP calls, then a RetryError) instead of raising it after one call. -/
theorem httpError_retried_as_connection_failure :
    ∃ r : Response,
      300 ≤ r.statusCode
      ∧ isConnectionFailure (exceptionStr (createException r)) = true
      ∧ runGet (fun _ => r) = (.retryStop (.error (.undecoded r)), 3) :=
  ⟨resp500conn, by decide, rfl, rfl⟩

end AppCenter
